import Mathlib

/-!
Shallow embedding of the resume-backend visit-counter service.

The Go sources embedded here:
* `main.go` — handlers `incrementVisitCount`, `getVisitCount`,
  `visitCountHandler`, middlewares `loggingMiddleware` and
  `originCheckMiddleware` (the variant with Host fallback, 403 on unset
  env), and the middleware composition in `main`.
* `middleware.go` — the alternate `originCheckMiddleware` (no Host
  fallback, 500 on unset env, sets `Access-Control-Allow-Origin`).
* the data-store file — `SQLiteDataStore` and `PostgresStore`, both
  implementing increment-visit (one `INSERT`) and get-visit-count
  (`SELECT COUNT(*)`).
* the metrics file — `prometheusMiddleware` with a request counter and a
  duration histogram labelled by (method, path).

External collaborators are modelled from their documented behaviour:
* Go `net/http` response writers: the first `WriteHeader` wins; any later
  `WriteHeader` (e.g. issued by `http.Error`) is a superfluous call that
  is ignored and only logged.  A `Write` before any `WriteHeader`
  implicitly sends status 200.
* The `rs/cors` library with `cors.Default()`: permissive, allows any
  origin (header value `*`), methods GET/POST/HEAD, handles OPTIONS
  preflight itself and always invokes downstream for actual requests.
* The environment (`os.Getenv`), the wall clock (`time.Now()`), and the
  success of writing the JSON encoding to the connection are inputs of
  the request context, because the Go code reads them per request.
-/

/-! ## HTTP model -/

/-- An inbound HTTP request: method, URL path, headers, and Host. -/
structure Request where
  method : String
  path : String
  headers : List (String × String)
  host : String
deriving DecidableEq, Repr

/-- Go `Header.Get`: first value for the key, or `""` when absent. -/
def getHeader (hs : List (String × String)) (k : String) : String :=
  match hs.find? (fun p => p.1 = k) with
  | some p => p.2
  | none => ""

/-- The state of a `net/http` response writer: headers, the status code
that has been sent (`none` until the header is written), and the body
written so far. -/
structure ResponseWriter where
  headers : List (String × String)
  status : Option Nat
  body : String
deriving DecidableEq, Repr

/-- A fresh response writer, as handed to the outermost handler. -/
def ResponseWriter.empty : ResponseWriter := ⟨[], none, ""⟩

/-- Go `Header().Set`: replace any existing values for the key. -/
def setHeader (w : ResponseWriter) (k v : String) : ResponseWriter :=
  { w with headers := (k, v) :: w.headers.filter (fun p => p.1 ≠ k) }

/-- Go `Header().Del`: remove the key. -/
def delHeader (w : ResponseWriter) (k : String) : ResponseWriter :=
  { w with headers := w.headers.filter (fun p => p.1 ≠ k) }

/-- Go `WriteHeader`: sends the status code; a second call is a
superfluous `WriteHeader` that `net/http` ignores (it only logs). -/
def writeHeader (w : ResponseWriter) (code : Nat) : ResponseWriter :=
  match w.status with
  | some _ => w
  | none => { w with status := some code }

/-- Go `Write`: writing a body before `WriteHeader` implicitly sends
status 200; the bytes are appended to the body. -/
def writeBody (w : ResponseWriter) (s : String) : ResponseWriter :=
  let w := writeHeader w 200
  { w with body := w.body ++ s }

/-- Go `http.Error(w, msg, code)`: deletes Content-Length, sets the two
plain-text headers, writes the status code and the message followed by a
newline. -/
def httpError (w : ResponseWriter) (msg : String) (code : Nat) : ResponseWriter :=
  let w := delHeader w "Content-Length"
  let w := setHeader w "Content-Type" "text/plain; charset=utf-8"
  let w := setHeader w "X-Content-Type-Options" "nosniff"
  let w := writeHeader w code
  writeBody w (msg ++ "\n")

/-- The status code of the response as the client sees it (an untouched
writer that reaches the end of the handler is sent as 200 by the
server). -/
def ResponseWriter.code (w : ResponseWriter) : Nat := w.status.getD 200

/-! ## The visits table and the two data stores -/

/-- One row of the `visits` table: auto-assigned id and a timestamp. -/
structure VisitRow where
  id : Nat
  timestamp : Nat
deriving DecidableEq, Repr

/-- The `visits` table: its rows plus the auto-increment counter. -/
structure VisitsTable where
  rows : List VisitRow
  nextId : Nat
deriving DecidableEq, Repr

/-- A freshly provisioned (empty) `visits` table. -/
def VisitsTable.empty : VisitsTable := ⟨[], 1⟩

/-- SQL `INSERT INTO visits (timestamp) VALUES (?)`: appends one row with
the next auto-increment id. -/
def VisitsTable.insert (tb : VisitsTable) (t : Nat) : VisitsTable :=
  ⟨tb.rows ++ [⟨tb.nextId, t⟩], tb.nextId + 1⟩

/-- SQL `SELECT COUNT(*) FROM visits`: the number of rows. -/
def VisitsTable.count (tb : VisitsTable) : Nat := tb.rows.length

/-- The SQLite-backed store of `SQLiteDataStore`: the table, plus whether
the underlying connection currently accepts queries (the driver is
external; a dead connection makes `Exec`/`QueryRow` return an error). -/
structure SQLiteDataStore where
  connOk : Bool
  table : VisitsTable
deriving DecidableEq, Repr

/-- Driver-level error text surfaced when the SQLite connection fails. -/
def sqliteErr : String := "database connection unavailable"

/-- Go `(*SQLiteDataStore).IncrementVisitCount`: one `INSERT` with the
given timestamp; propagates the error unchanged apart from wrapping. -/
def SQLiteDataStore.IncrementVisitCount (s : SQLiteDataStore) (t : Nat) :
    Except String SQLiteDataStore :=
  if s.connOk then .ok { s with table := s.table.insert t }
  else .error ("failed to increment visit count: " ++ sqliteErr)

/-- Go `(*SQLiteDataStore).GetVisitCount`: `SELECT COUNT(*)`; 0 rows is a
success, only a connection/query failure is an error. -/
def SQLiteDataStore.GetVisitCount (s : SQLiteDataStore) : Except String Nat :=
  if s.connOk then .ok s.table.count
  else .error ("failed to get visit count: " ++ sqliteErr)

/-- A freshly provisioned SQLite store: live connection, empty table. -/
def freshSQLiteStore : SQLiteDataStore := ⟨true, VisitsTable.empty⟩

/-- The Postgres-backed store of `PostgresStore`: same shape, the pool
reachability plays the role of the connection flag. -/
structure PostgresStore where
  connOk : Bool
  table : VisitsTable
deriving DecidableEq, Repr

/-- Driver-level error text surfaced when the Postgres pool fails. -/
def postgresErr : String := "connection pool unavailable"

/-- Go `(*PostgresStore).IncrementVisitCount`: one `INSERT` with the
given timestamp ($1 placeholder, same statement semantics). -/
def PostgresStore.IncrementVisitCount (s : PostgresStore) (t : Nat) :
    Except String PostgresStore :=
  if s.connOk then .ok { s with table := s.table.insert t }
  else .error ("failed to increment visit count: " ++ postgresErr)

/-- Go `(*PostgresStore).GetVisitCount`: `SELECT COUNT(*) FROM visits`. -/
def PostgresStore.GetVisitCount (s : PostgresStore) : Except String Nat :=
  if s.connOk then .ok s.table.count
  else .error ("failed to get visit count: " ++ postgresErr)

/-- A freshly provisioned Postgres store: live pool, empty table. -/
def freshPostgresStore : PostgresStore := ⟨true, VisitsTable.empty⟩

/-! ## Application state, request context, handlers -/

/-- Process-wide observable state touched on the request path: the
store behind `dbConn`, the two Prometheus instruments (modelled by the
per-label counts they hold), and the log lines emitted. -/
structure AppState where
  store : SQLiteDataStore
  metricsTotal : List ((String × String) × Nat)
  metricsObs : List ((String × String) × Nat)
  logLines : List (String × String)
deriving DecidableEq, Repr

/-- Per-request inputs the Go code reads from the outside world: the
request itself, the value of `ALLOWED_ORIGINS` in the process
environment at the time of the request (the middlewares call
`os.Getenv` inside the per-request closure), the wall clock reading
`time.Now()` returns, and whether writing the JSON encoding to the
connection succeeds. -/
structure ReqCtx where
  req : Request
  env : String
  now : Nat
  encodeOk : Bool
deriving DecidableEq, Repr

/-- An `http.Handler`: consumes the request context, the process state
and the response writer, and produces the new state and writer. -/
abbrev Handler := ReqCtx → AppState → ResponseWriter → AppState × ResponseWriter

/-- Prometheus `WithLabelValues(...).Inc()` / `Observe`: bump the count
for the label pair, creating it at 1 on first use. -/
def counterInc (m : List ((String × String) × Nat)) (k : String × String) :
    List ((String × String) × Nat) :=
  match m with
  | [] => [(k, 1)]
  | p :: rest => if p.1 = k then (k, p.2 + 1) :: rest else p :: counterInc rest k

/-- Read a Prometheus counter for a label pair (0 when never touched). -/
def counterGet (m : List ((String × String) × Nat)) (k : String × String) : Nat :=
  match m with
  | [] => 0
  | p :: rest => if p.1 = k then p.2 else counterGet rest k

/-- The JSON body `json.NewEncoder(w).Encode` produces for the POST
success message (the encoder appends a newline). -/
def visitIncrementedBody : String :=
  "\x7b\"message\":\"Visit count incremented\"\x7d\n"

/-- Go `incrementVisitCount` of `main.go`: `INSERT` with `time.Now()`;
on storage error an `http.Error` with status 500; on success
Content-Type, `WriteHeader(200)` and the JSON body — when the encoder
fails, a further `http.Error(..., 500)` whose `WriteHeader` is
superfluous because 200 has already been sent. -/
def incrementVisitCount (ctx : ReqCtx) (st : AppState) (w : ResponseWriter) :
    AppState × ResponseWriter :=
  match st.store.IncrementVisitCount ctx.now with
  | .error e => (st, httpError w ("Failed to increment visit count: " ++ e) 500)
  | .ok store' =>
    let st := { st with store := store' }
    let w := setHeader w "Content-Type" "application/json"
    let w := writeHeader w 200
    if ctx.encodeOk then (st, writeBody w visitIncrementedBody)
    else (st, httpError w "Failed to encode response" 500)

/-- Go `getVisitCount` of `main.go`: `SELECT COUNT(*)`; on storage error
an `http.Error` with status 500; on success Content-Type and the JSON
count body (the encoder result is ignored on this path). -/
def getVisitCount (ctx : ReqCtx) (st : AppState) (w : ResponseWriter) :
    AppState × ResponseWriter :=
  match st.store.GetVisitCount with
  | .error e => (st, httpError w ("Failed to get visit count: " ++ e) 500)
  | .ok c =>
    let w := setHeader w "Content-Type" "application/json"
    if ctx.encodeOk then (st, writeBody w ("\x7b\"visits\":" ++ toString c ++ "\x7d\n"))
    else (st, w)

/-- Go `visitCountHandler`: dispatch on the verb; anything other than
POST or GET gets `http.Error("Invalid request method", 405)`. -/
def visitCountHandler : Handler := fun ctx st w =>
  if ctx.req.method = "POST" then incrementVisitCount ctx st w
  else if ctx.req.method = "GET" then getVisitCount ctx st w
  else (st, httpError w "Invalid request method" 405)

/-! ## Middlewares -/

/-- Go `loggingMiddleware`: invokes downstream, then logs method and URL
(with the elapsed duration, which the model does not measure). -/
def loggingMiddleware (next : Handler) : Handler := fun ctx st w =>
  let p := next ctx st w
  ({ p.1 with logLines := p.1.logLines ++ [(ctx.req.method, ctx.req.path)] }, p.2)

/-- Go `prometheusMiddleware`: starts a timer whose observation is
deferred to the return of the handler, increments the request counter
for (method, path), then invokes downstream; on return the deferred
observation lands in the histogram for the same label pair. -/
def prometheusMiddleware (next : Handler) : Handler := fun ctx st w =>
  let k := (ctx.req.method, ctx.req.path)
  let st := { st with metricsTotal := counterInc st.metricsTotal k }
  let p := next ctx st w
  ({ p.1 with metricsObs := counterInc p.1.metricsObs k }, p.2)

/-- Model of the external `rs/cors` library with `cors.Default()`:
an OPTIONS request carrying Access-Control-Request-Method is answered as
a preflight (no downstream); every other request gets the permissive
headers when it carries an Origin and an allowed method, and downstream
is always invoked. -/
def corsDefaultHandler (next : Handler) : Handler := fun ctx st w =>
  if ctx.req.method = "OPTIONS" ∧ getHeader ctx.req.headers "Access-Control-Request-Method" ≠ "" then
    let w := setHeader w "Vary" "Origin"
    let w :=
      if getHeader ctx.req.headers "Origin" ≠ "" then
        setHeader (setHeader w "Access-Control-Allow-Origin" "*")
          "Access-Control-Allow-Methods" (getHeader ctx.req.headers "Access-Control-Request-Method")
      else w
    (st, writeHeader w 204)
  else
    let w := setHeader w "Vary" "Origin"
    let w :=
      if getHeader ctx.req.headers "Origin" ≠ ""
          ∧ (ctx.req.method = "GET" ∨ ctx.req.method = "POST" ∨ ctx.req.method = "HEAD") then
        setHeader w "Access-Control-Allow-Origin" "*"
      else w
    next ctx st w

/-- Go `strings.Split(s, ",")` on the character list: splits around each
comma; the empty string yields `[""]`, a trailing comma yields a final
empty element. -/
def splitCommaChars : List Char → List String
  | [] => [""]
  | c :: rest =>
    if c = ',' then "" :: splitCommaChars rest
    else
      match splitCommaChars rest with
      | [] => [String.mk [c]]
      | h :: t => String.mk (c :: h.data) :: t

/-- Go `strings.Split(s, ",")`, as both origin-check middlewares apply it
to the `ALLOWED_ORIGINS` value. -/
def goSplitComma (s : String) : List String := splitCommaChars s.data

namespace MainGo

/-- The request origin as `main.go`'s `originCheckMiddleware` computes
it: the Origin header, falling back to the request Host when absent. -/
def requestOrigin (ctx : ReqCtx) : String :=
  let origin := getHeader ctx.req.headers "Origin"
  if origin = "" then ctx.req.host else origin

/-- Go `originCheckMiddleware` of `main.go`: reads `ALLOWED_ORIGINS`
from the environment on each request; empty value gives a 403; the
comma-split list is scanned for an exact match of the request origin
(Host fallback); a match invokes downstream unchanged (no CORS header is
set here), no match gives a 403. -/
def originCheckMiddleware (next : Handler) : Handler := fun ctx st w =>
  if ctx.env = "" then
    (st, httpError w "Origin not allowed: ALLOWED_ORIGINS not set" 403)
  else if (goSplitComma ctx.env).contains (requestOrigin ctx) then
    next ctx st w
  else
    (st, httpError w "Origin not allowed" 403)

end MainGo

namespace MiddlewareGo

/-- Go `originCheckMiddleware` of `middleware.go`: reads
`ALLOWED_ORIGINS` from the environment on each request; empty value
gives a 500 "Allowed origins not set"; the loop over the comma-split
list compares the Origin header (no Host fallback) by exact match; no
match gives a 403 "Forbidden"; a match sets
`Access-Control-Allow-Origin` to the Origin header and invokes
downstream. -/
def originCheckMiddleware (next : Handler) : Handler := fun ctx st w =>
  if ctx.env = "" then
    (st, httpError w "Allowed origins not set" 500)
  else if (goSplitComma ctx.env).contains (getHeader ctx.req.headers "Origin") then
    next ctx st (setHeader w "Access-Control-Allow-Origin" (getHeader ctx.req.headers "Origin"))
  else
    (st, httpError w "Forbidden" 403)

end MiddlewareGo

/-! ## Bootstrap composition (`main` of `main.go`) -/

/-- The `/api/count` handler chain exactly as `main` builds it:
`handler := visitCountHandler`; wrap in `loggingMiddleware`; wrap in
`cors.Default().Handler`; and only when `APP_ENV == "prod"`, wrap in
`originCheckMiddleware` (the `main.go` variant). -/
def mainHandlerChain (prodMode : Bool) : Handler :=
  let handler := visitCountHandler
  let handler := loggingMiddleware handler
  let handler := corsDefaultHandler handler
  if prodMode then MainGo.originCheckMiddleware handler else handler

/-- Modelled from the spec: the middleware nesting claim C2 asserts for
the bootstrap — metrics wraps logging wraps CORS wraps origin-check
wraps the visit handler, metrics outermost and the origin check
innermost immediately before the handler.  This chain is not built
anywhere in `src/`; it exists only to be compared with
`mainHandlerChain`. -/
def claimedBootstrapChain : Handler :=
  prometheusMiddleware (loggingMiddleware (corsDefaultHandler
    (MainGo.originCheckMiddleware visitCountHandler)))

/-- The test suites' dummy downstream handler: writes status 200 and
nothing else (a spy that lets the response writer show whether it
ran). -/
def passHandler : Handler := fun _ st w => (st, writeHeader w 200)

/-- A downstream spy that marks its invocation in the log lines, so two
runs took the same branch exactly when their logs agree. -/
def spyHandler : Handler := fun _ st w =>
  ({ st with logLines := st.logLines ++ [("spy", "spy")] }, w)

/-- The process state at boot: fresh SQLite store, no metrics, no
logs. -/
def initialState : AppState := ⟨freshSQLiteStore, [], [], []⟩

/-! ## Concrete scenarios used by counterexamples and witnesses -/

/-- A production request whose Origin is not in the allow-list. -/
def prodBadOriginCtx : ReqCtx :=
  ⟨⟨"POST", "/api/count", [("Origin", "http://bad.com")], "example.org"⟩,
    "http://example.com", 0, true⟩

/-- A POST on a healthy store whose success-body serialization fails. -/
def encodeFailCtx : ReqCtx :=
  ⟨⟨"POST", "/api/count", [], "localhost:8000"⟩, "http://example.com", 7, false⟩

/-- A POST on a healthy store whose serialization succeeds. -/
def postOkCtx : ReqCtx :=
  ⟨⟨"POST", "/api/count", [], "localhost:8000"⟩, "http://example.com", 7, true⟩

/-- A request whose Origin exactly matches the one allowed origin. -/
def matchCtx : ReqCtx :=
  ⟨⟨"GET", "/", [("Origin", "http://example.com")], "h"⟩, "http://example.com", 0, true⟩

/-- A request seen while `ALLOWED_ORIGINS` is `http://a.com`. -/
def envACtx : ReqCtx :=
  ⟨⟨"GET", "/", [("Origin", "http://a.com")], "h"⟩, "http://a.com", 0, true⟩

/-- The identical request seen after the environment variable became
empty (same process, later moment). -/
def envEmptyCtx : ReqCtx :=
  ⟨⟨"GET", "/", [("Origin", "http://a.com")], "h"⟩, "", 0, true⟩

/-- The identical request at a later clock reading, same environment. -/
def envACtxLater : ReqCtx :=
  ⟨⟨"GET", "/", [("Origin", "http://a.com")], "h"⟩, "http://a.com", 99, true⟩

/-- A request carrying no Origin header while the allow-list string ends
in a comma. -/
def trailingCommaCtx : ReqCtx :=
  ⟨⟨"GET", "/", [], "h"⟩, "http://example.com,", 0, true⟩

/-- A PUT request, the Invalid-method scenario of the test suites. -/
def putCtx : ReqCtx :=
  ⟨⟨"PUT", "/api/count", [], "localhost:8000"⟩, "http://example.com", 0, true⟩

/-! ## Helper lemmas -/

/-- Bumping a Prometheus instrument raises the value read for the bumped
label pair by exactly one. -/
theorem counterGet_counterInc (m : List ((String × String) × Nat)) (k : String × String) :
    counterGet (counterInc m k) k = counterGet m k + 1 := by
  induction m with
  | nil => simp [counterInc, counterGet]
  | cons p rest ih =>
    by_cases h : p.1 = k
    · simp [counterInc, counterGet, h]
    · simp [counterInc, counterGet, h, ih]

/-- The visit handler never touches the Prometheus instruments. -/
theorem visitHandlerMetricsUntouched (ctx : ReqCtx) (st : AppState) (w : ResponseWriter) :
    ((visitCountHandler ctx st w).1).metricsTotal = st.metricsTotal
      ∧ ((visitCountHandler ctx st w).1).metricsObs = st.metricsObs := by
  unfold visitCountHandler incrementVisitCount getVisitCount
  by_cases hp : ctx.req.method = "POST"
  · simp only [hp, if_true]
    cases st.store.IncrementVisitCount ctx.now with
    | error e => simp
    | ok s' => by_cases he : ctx.encodeOk <;> simp [he]
  · by_cases hg : ctx.req.method = "GET"
    · simp only [hp, hg, if_false, if_true]
      cases st.store.GetVisitCount with
      | error e => simp
      | ok c => by_cases he : ctx.encodeOk <;> simp [he]
    · simp [hp, hg]

/-- Logging wrapped around the visit handler still never touches the
Prometheus instruments. -/
theorem loggingChainMetricsUntouched (ctx : ReqCtx) (st : AppState) (w : ResponseWriter) :
    ((loggingMiddleware visitCountHandler ctx st w).1).metricsTotal = st.metricsTotal
      ∧ ((loggingMiddleware visitCountHandler ctx st w).1).metricsObs = st.metricsObs := by
  unfold loggingMiddleware
  simpa using visitHandlerMetricsUntouched ctx st w

/-- CORS wrapped around logging and the visit handler still never
touches the Prometheus instruments. -/
theorem corsChainMetricsUntouched (ctx : ReqCtx) (st : AppState) (w : ResponseWriter) :
    ((corsDefaultHandler (loggingMiddleware visitCountHandler) ctx st w).1).metricsTotal
        = st.metricsTotal
      ∧ ((corsDefaultHandler (loggingMiddleware visitCountHandler) ctx st w).1).metricsObs
        = st.metricsObs := by
  unfold corsDefaultHandler
  by_cases hopt : ctx.req.method = "OPTIONS"
      ∧ getHeader ctx.req.headers "Access-Control-Request-Method" ≠ ""
  · simp [hopt]
  · simp only [hopt, if_false]
    exact loggingChainMetricsUntouched ctx st _

/-! ## C9 -/

/-- C9: get-visit-count on a freshly provisioned empty store returns the
value 0 with no error, on both backends. -/
theorem getVisitCount_empty_store_ok :
    freshSQLiteStore.GetVisitCount = .ok 0 ∧ freshPostgresStore.GetVisitCount = .ok 0 := by
  constructor <;> rfl

/-! ## C8 -/

/-- C8: a successful increment-visit inserts exactly one Visit Record
with the given timestamp, so get-visit-count afterwards returns exactly
one more than it did before, on both backends. -/
theorem increment_then_count_succ (s s' : SQLiteDataStore) (p p' : PostgresStore)
    (t u c d : Nat)
    (hs : s.IncrementVisitCount t = .ok s') (hcs : s.GetVisitCount = .ok c)
    (hp : p.IncrementVisitCount u = .ok p') (hcp : p.GetVisitCount = .ok d) :
    s'.GetVisitCount = .ok (c + 1)
      ∧ s'.table.rows = s.table.rows ++ [⟨s.table.nextId, t⟩]
      ∧ p'.GetVisitCount = .ok (d + 1)
      ∧ p'.table.rows = p.table.rows ++ [⟨p.table.nextId, u⟩] := by
  by_cases h1 : s.connOk
  · by_cases h2 : p.connOk
    · simp only [SQLiteDataStore.IncrementVisitCount, h1, if_true, Except.ok.injEq] at hs
      simp only [SQLiteDataStore.GetVisitCount, h1, if_true, Except.ok.injEq] at hcs
      simp only [PostgresStore.IncrementVisitCount, h2, if_true, Except.ok.injEq] at hp
      simp only [PostgresStore.GetVisitCount, h2, if_true, Except.ok.injEq] at hcp
      subst hs hp hcs hcp
      simp [SQLiteDataStore.GetVisitCount, PostgresStore.GetVisitCount, h1, h2,
        VisitsTable.insert, VisitsTable.count]
    · simp [PostgresStore.IncrementVisitCount, h2] at hp
  · simp [SQLiteDataStore.IncrementVisitCount, h1] at hs

/-- C8 witness: concrete empty stores, timestamps 5 and 9. -/
theorem increment_then_count_succ_witness :
    SQLiteDataStore.GetVisitCount ⟨true, ⟨[⟨1, 5⟩], 2⟩⟩ = .ok (0 + 1)
      ∧ (⟨true, ⟨[⟨1, 5⟩], 2⟩⟩ : SQLiteDataStore).table.rows
          = freshSQLiteStore.table.rows ++ [⟨freshSQLiteStore.table.nextId, 5⟩]
      ∧ PostgresStore.GetVisitCount ⟨true, ⟨[⟨1, 9⟩], 2⟩⟩ = .ok (0 + 1)
      ∧ (⟨true, ⟨[⟨1, 9⟩], 2⟩⟩ : PostgresStore).table.rows
          = freshPostgresStore.table.rows ++ [⟨freshPostgresStore.table.nextId, 9⟩] :=
  increment_then_count_succ freshSQLiteStore ⟨true, ⟨[⟨1, 5⟩], 2⟩⟩
    freshPostgresStore ⟨true, ⟨[⟨1, 9⟩], 2⟩⟩ 5 9 0 0 rfl rfl rfl rfl

/-! ## C6 -/

/-- C6: a verb that is neither GET nor POST gets the 405 error from the
visit handler, with the whole state — in particular the store — returned
unchanged, so no storage operation happens. -/
theorem visit_handler_other_verb_405 (ctx : ReqCtx) (st : AppState) (w : ResponseWriter)
    (hpost : ctx.req.method ≠ "POST") (hget : ctx.req.method ≠ "GET") :
    visitCountHandler ctx st w = (st, httpError w "Invalid request method" 405)
      ∧ ((visitCountHandler ctx st ResponseWriter.empty).2).code = 405 := by
  constructor
  · simp [visitCountHandler, hpost, hget]
  · simp [visitCountHandler, hpost, hget, httpError, delHeader, setHeader, writeHeader,
      writeBody, ResponseWriter.empty, ResponseWriter.code]

/-- C6 witness: a PUT to `/api/count` on the boot state. -/
theorem visit_handler_other_verb_405_witness :
    visitCountHandler putCtx initialState ResponseWriter.empty
        = (initialState, httpError ResponseWriter.empty "Invalid request method" 405)
      ∧ ((visitCountHandler putCtx initialState ResponseWriter.empty).2).code = 405 :=
  visit_handler_other_verb_405 putCtx initialState ResponseWriter.empty
    (by decide) (by decide)

/-! ## C4 -/

/-- C4: with `ALLOWED_ORIGINS` empty, the `middleware.go` origin check
answers 500 ("Allowed origins not set") and the `main.go` variant
answers 403; neither invokes the downstream handler and both return the
state — hence the store — unchanged, so no storage call occurs. -/
theorem origin_check_empty_env_rejects (next : Handler) (ctx : ReqCtx) (st : AppState)
    (w : ResponseWriter) (henv : ctx.env = "") :
    MiddlewareGo.originCheckMiddleware next ctx st w
        = (st, httpError w "Allowed origins not set" 500)
      ∧ MainGo.originCheckMiddleware next ctx st w
        = (st, httpError w "Origin not allowed: ALLOWED_ORIGINS not set" 403)
      ∧ ((MiddlewareGo.originCheckMiddleware next ctx st ResponseWriter.empty).2).code = 500
      ∧ ((MainGo.originCheckMiddleware next ctx st ResponseWriter.empty).2).code = 403 := by
  refine ⟨?_, ?_, ?_, ?_⟩ <;>
    simp [MiddlewareGo.originCheckMiddleware, MainGo.originCheckMiddleware, henv,
      httpError, delHeader, setHeader, writeHeader, writeBody,
      ResponseWriter.empty, ResponseWriter.code]

/-- C4 witness: the matching request processed while the environment
variable is empty. -/
theorem origin_check_empty_env_rejects_witness :
    MiddlewareGo.originCheckMiddleware passHandler envEmptyCtx initialState ResponseWriter.empty
        = (initialState, httpError ResponseWriter.empty "Allowed origins not set" 500)
      ∧ MainGo.originCheckMiddleware passHandler envEmptyCtx initialState ResponseWriter.empty
        = (initialState, httpError ResponseWriter.empty "Origin not allowed: ALLOWED_ORIGINS not set" 403)
      ∧ ((MiddlewareGo.originCheckMiddleware passHandler envEmptyCtx initialState
            ResponseWriter.empty).2).code = 500
      ∧ ((MainGo.originCheckMiddleware passHandler envEmptyCtx initialState
            ResponseWriter.empty).2).code = 403 :=
  origin_check_empty_env_rejects passHandler envEmptyCtx initialState
    ResponseWriter.empty rfl

/-! ## C10 -/

/-- C10: in the `middleware.go` variant, a non-empty allow-list string
that splits into a list containing the empty element lets a request
without an Origin header through: downstream runs on a writer whose
`Access-Control-Allow-Origin` is the empty string. -/
theorem empty_element_allows_missing_origin (next : Handler) (ctx : ReqCtx) (st : AppState)
    (w : ResponseWriter) (henv : ctx.env ≠ "")
    (hm : (goSplitComma ctx.env).contains "" = true)
    (ho : getHeader ctx.req.headers "Origin" = "") :
    MiddlewareGo.originCheckMiddleware next ctx st w
      = next ctx st (setHeader w "Access-Control-Allow-Origin" "") := by
  have hm' : "" ∈ goSplitComma ctx.env := by simpa using hm
  simp [MiddlewareGo.originCheckMiddleware, henv, ho, hm']

/-- C10 witness: allow-list `http://example.com,` (trailing comma) and a
request with no Origin header; the spy downstream runs and the CORS
header it sees is the empty string. -/
theorem empty_element_allows_missing_origin_witness :
    MiddlewareGo.originCheckMiddleware passHandler trailingCommaCtx initialState
        ResponseWriter.empty
      = passHandler trailingCommaCtx initialState
          (setHeader ResponseWriter.empty "Access-Control-Allow-Origin" "") :=
  empty_element_allows_missing_origin passHandler trailingCommaCtx initialState
    ResponseWriter.empty (by decide) (by decide) (by decide)

/-! ## C7 -/

/-- C7: every pass through the Prometheus middleware raises the request
counter for the request's (method, path) label pair by exactly one and
lands exactly one new observation in the duration histogram for the same
pair, the observation being recorded after downstream returns (the
deferred timer); downstream is assumed not to touch the instruments, as
no handler of this service does. -/
theorem prometheus_counts_once (next : Handler) (ctx : ReqCtx) (st : AppState)
    (w : ResponseWriter)
    (hT : ∀ c s ww, ((next c s ww).1).metricsTotal = s.metricsTotal)
    (hO : ∀ c s ww, ((next c s ww).1).metricsObs = s.metricsObs) :
    counterGet ((prometheusMiddleware next ctx st w).1).metricsTotal
        (ctx.req.method, ctx.req.path)
      = counterGet st.metricsTotal (ctx.req.method, ctx.req.path) + 1
    ∧ counterGet ((prometheusMiddleware next ctx st w).1).metricsObs
        (ctx.req.method, ctx.req.path)
      = counterGet st.metricsObs (ctx.req.method, ctx.req.path) + 1 := by
  unfold prometheusMiddleware
  constructor
  · simp only [hT]
    exact counterGet_counterInc _ _
  · simp only [hO]
    exact counterGet_counterInc _ _

/-- C7 witness: a POST to `/api/count` through the metrics middleware on
the boot state, with the dummy 200 handler downstream. -/
theorem prometheus_counts_once_witness :
    counterGet ((prometheusMiddleware passHandler postOkCtx initialState
          ResponseWriter.empty).1).metricsTotal
        (postOkCtx.req.method, postOkCtx.req.path)
      = counterGet initialState.metricsTotal (postOkCtx.req.method, postOkCtx.req.path) + 1
    ∧ counterGet ((prometheusMiddleware passHandler postOkCtx initialState
          ResponseWriter.empty).1).metricsObs
        (postOkCtx.req.method, postOkCtx.req.path)
      = counterGet initialState.metricsObs (postOkCtx.req.method, postOkCtx.req.path) + 1 :=
  prometheus_counts_once passHandler postOkCtx initialState ResponseWriter.empty
    (fun _ _ _ => rfl) (fun _ _ _ => rfl)

/-! ## C1 -/

/-- C1 counterexample: a POST whose storage call succeeds but whose
success-body serialization fails is answered with status 200, not 500 —
`WriteHeader(200)` has already been sent when the encode-failure branch
calls `http.Error(..., 500)`, and that second `WriteHeader` is a
superfluous call that `net/http` ignores. -/
theorem post_encode_failure_not_500 :
    ((visitCountHandler encodeFailCtx initialState ResponseWriter.empty).2).code = 200
      ∧ ¬ ((visitCountHandler encodeFailCtx initialState ResponseWriter.empty).2).code = 500 := by
  decide

/-- C1 (amended): a POST calls increment-visit with the current
wall-clock reading; on storage failure the response is a 500 and the
state is unchanged; on storage success exactly one row with that
timestamp is inserted and the response is a 200 carrying the JSON
message body; when serializing that body fails the row is still
inserted but the status stays 200 (the attempted 500 is ignored because
the 200 header is already sent). -/
theorem post_visit_handler_responses (ctx : ReqCtx) (st : AppState)
    (hm : ctx.req.method = "POST") :
    (st.store.connOk = false →
        ((visitCountHandler ctx st ResponseWriter.empty).2).code = 500
          ∧ (visitCountHandler ctx st ResponseWriter.empty).1 = st)
  ∧ (st.store.connOk = true → ctx.encodeOk = true →
        ((visitCountHandler ctx st ResponseWriter.empty).2).code = 200
          ∧ ((visitCountHandler ctx st ResponseWriter.empty).2).body = visitIncrementedBody
          ∧ ((visitCountHandler ctx st ResponseWriter.empty).1).store.table.rows
              = st.store.table.rows ++ [⟨st.store.table.nextId, ctx.now⟩])
  ∧ (st.store.connOk = true → ctx.encodeOk = false →
        ((visitCountHandler ctx st ResponseWriter.empty).2).code = 200
          ∧ ((visitCountHandler ctx st ResponseWriter.empty).1).store.table.rows
              = st.store.table.rows ++ [⟨st.store.table.nextId, ctx.now⟩]) := by
  refine ⟨fun hc => ?_, fun hc he => ?_, fun hc he => ?_⟩
  · simp [visitCountHandler, hm, incrementVisitCount, SQLiteDataStore.IncrementVisitCount,
      hc, httpError, delHeader, setHeader, writeHeader, writeBody, ResponseWriter.code,
      ResponseWriter.empty, VisitsTable.insert]
  · simp [visitCountHandler, hm, incrementVisitCount, SQLiteDataStore.IncrementVisitCount,
      hc, he, httpError, delHeader, setHeader, writeHeader, writeBody, ResponseWriter.code,
      ResponseWriter.empty, VisitsTable.insert]
  · simp [visitCountHandler, hm, incrementVisitCount, SQLiteDataStore.IncrementVisitCount,
      hc, he, httpError, delHeader, setHeader, writeHeader, writeBody, ResponseWriter.code,
      ResponseWriter.empty, VisitsTable.insert]

/-- C1 witness: the healthy-store POST with working serialization gets
its 200, the JSON message body, and exactly one inserted row carrying
the request's clock reading. -/
theorem post_visit_handler_responses_witness :
    ((visitCountHandler postOkCtx initialState ResponseWriter.empty).2).code = 200
      ∧ ((visitCountHandler postOkCtx initialState ResponseWriter.empty).2).body
          = visitIncrementedBody
      ∧ ((visitCountHandler postOkCtx initialState ResponseWriter.empty).1).store.table.rows
          = initialState.store.table.rows
              ++ [⟨initialState.store.table.nextId, postOkCtx.now⟩] :=
  (post_visit_handler_responses postOkCtx initialState rfl).2.1 rfl rfl

/-! ## C3 -/

/-- C3 counterexample: in the `main.go` variant (the one with the Host
fallback) a request whose Origin exactly matches the single allowed
origin is passed downstream — the dummy handler answers 200 — yet the
response carries no `Access-Control-Allow-Origin` header at all, rather
than one set to the matched origin. -/
theorem main_variant_match_sets_no_acao :
    ((MainGo.originCheckMiddleware passHandler matchCtx initialState
        ResponseWriter.empty).2).code = 200
      ∧ getHeader ((MainGo.originCheckMiddleware passHandler matchCtx initialState
          ResponseWriter.empty).2).headers "Access-Control-Allow-Origin" = ""
      ∧ getHeader ((MainGo.originCheckMiddleware passHandler matchCtx initialState
          ResponseWriter.empty).2).headers "Access-Control-Allow-Origin"
        ≠ "http://example.com" := by
  decide

/-- C3 (amended): with a non-empty allow-list both variants compare by
exact string match and respond 403 without ever invoking downstream on a
miss; on a match both invoke downstream, but only the `middleware.go`
variant hands downstream a writer whose `Access-Control-Allow-Origin` is
the matched origin — the `main.go` variant (which falls back to the
request Host when Origin is absent) invokes downstream with the writer
unchanged and sets no CORS header itself. -/
theorem origin_check_match_behavior (next : Handler) (ctx : ReqCtx) (st : AppState)
    (w : ResponseWriter) (henv : ctx.env ≠ "") :
    (MiddlewareGo.originCheckMiddleware next ctx st w =
        if (goSplitComma ctx.env).contains (getHeader ctx.req.headers "Origin") then
          next ctx st
            (setHeader w "Access-Control-Allow-Origin" (getHeader ctx.req.headers "Origin"))
        else (st, httpError w "Forbidden" 403))
  ∧ (MainGo.originCheckMiddleware next ctx st w =
        if (goSplitComma ctx.env).contains (MainGo.requestOrigin ctx) then next ctx st w
        else (st, httpError w "Origin not allowed" 403)) := by
  constructor <;>
    simp [MiddlewareGo.originCheckMiddleware, MainGo.originCheckMiddleware, henv]

/-- C3 witness: allow-list `http://example.com` with a matching Origin,
instantiated for both variants with the dummy 200 handler. -/
theorem origin_check_match_behavior_witness :
    (MiddlewareGo.originCheckMiddleware passHandler matchCtx initialState
        ResponseWriter.empty =
        if (goSplitComma matchCtx.env).contains (getHeader matchCtx.req.headers "Origin") then
          passHandler matchCtx initialState
            (setHeader ResponseWriter.empty "Access-Control-Allow-Origin"
              (getHeader matchCtx.req.headers "Origin"))
        else (initialState, httpError ResponseWriter.empty "Forbidden" 403))
  ∧ (MainGo.originCheckMiddleware passHandler matchCtx initialState
        ResponseWriter.empty =
        if (goSplitComma matchCtx.env).contains (MainGo.requestOrigin matchCtx) then
          passHandler matchCtx initialState ResponseWriter.empty
        else (initialState, httpError ResponseWriter.empty "Origin not allowed" 403)) :=
  origin_check_match_behavior passHandler matchCtx initialState ResponseWriter.empty
    (by decide)

/-! ## C5 -/

/-- C5 counterexample: the very same request, processed by the very same
composed middleware, is accepted while the environment holds
`http://a.com` and rejected once the environment variable is empty — the
allow-list is read from the environment on the request path, not loaded
once at process start. -/
theorem origin_check_rereads_env :
    envACtx.req = envEmptyCtx.req
      ∧ MainGo.originCheckMiddleware passHandler envACtx initialState ResponseWriter.empty
          ≠ MainGo.originCheckMiddleware passHandler envEmptyCtx initialState
              ResponseWriter.empty
      ∧ MiddlewareGo.originCheckMiddleware passHandler envACtx initialState
            ResponseWriter.empty
          ≠ MiddlewareGo.originCheckMiddleware passHandler envEmptyCtx initialState
              ResponseWriter.empty := by
  decide

/-- C5 (amended): each request re-reads `ALLOWED_ORIGINS`, but the
program never writes it, so any two requests that observe the same
environment value and present the same Origin header (and Host, for the
fallback variant) receive the same accept/reject decision from both
origin-check variants — witnessed by a spy downstream that marks the
log when it runs. -/
theorem origin_check_same_env_same_decision (c1 c2 : ReqCtx) (st : AppState)
    (w : ResponseWriter) (henv : c1.env = c2.env)
    (hor : getHeader c1.req.headers "Origin" = getHeader c2.req.headers "Origin")
    (hhost : c1.req.host = c2.req.host) :
    ((MainGo.originCheckMiddleware spyHandler c1 st w).1).logLines
        = ((MainGo.originCheckMiddleware spyHandler c2 st w).1).logLines
      ∧ ((MiddlewareGo.originCheckMiddleware spyHandler c1 st w).1).logLines
        = ((MiddlewareGo.originCheckMiddleware spyHandler c2 st w).1).logLines := by
  constructor
  · simp only [MainGo.originCheckMiddleware, MainGo.requestOrigin, spyHandler, henv, hor, hhost]
  · simp only [MiddlewareGo.originCheckMiddleware, spyHandler, henv, hor]

/-- C5 witness: the same request at two clock readings under the same
environment value gets the same decision from both variants. -/
theorem origin_check_same_env_same_decision_witness :
    ((MainGo.originCheckMiddleware spyHandler envACtx initialState
          ResponseWriter.empty).1).logLines
        = ((MainGo.originCheckMiddleware spyHandler envACtxLater initialState
            ResponseWriter.empty).1).logLines
      ∧ ((MiddlewareGo.originCheckMiddleware spyHandler envACtx initialState
            ResponseWriter.empty).1).logLines
        = ((MiddlewareGo.originCheckMiddleware spyHandler envACtxLater initialState
            ResponseWriter.empty).1).logLines :=
  origin_check_same_env_same_decision envACtx envACtxLater initialState
    ResponseWriter.empty rfl rfl rfl

/-! ## C2 -/

/-- C2 counterexample: on a production request that fails the origin
check, the chain built by `main` leaves the Prometheus request counter
untouched (the metrics middleware is not part of the composition), while
the chain the claim describes would have incremented it; the two chains
therefore disagree at this input. -/
theorem bootstrap_chain_not_claimed :
    ((mainHandlerChain true prodBadOriginCtx initialState ResponseWriter.empty).1).metricsTotal
        = []
      ∧ ((claimedBootstrapChain prodBadOriginCtx initialState
            ResponseWriter.empty).1).metricsTotal
        = [(("POST", "/api/count"), 1)]
      ∧ mainHandlerChain true prodBadOriginCtx initialState ResponseWriter.empty
          ≠ claimedBootstrapChain prodBadOriginCtx initialState ResponseWriter.empty := by
  decide

/-- C2 (amended): the chain `main` composes nests as origin-check
(present only in production mode) outermost, wrapping CORS, wrapping
logging, wrapping the visit handler; the metrics middleware is not part
of the `/api/count` chain, so no request through it ever changes the
Prometheus instruments. -/
theorem bootstrap_chain_nesting :
    mainHandlerChain true
        = MainGo.originCheckMiddleware (corsDefaultHandler (loggingMiddleware visitCountHandler))
      ∧ mainHandlerChain false = corsDefaultHandler (loggingMiddleware visitCountHandler)
      ∧ (∀ ctx st w, ((mainHandlerChain true ctx st w).1).metricsTotal = st.metricsTotal
          ∧ ((mainHandlerChain true ctx st w).1).metricsObs = st.metricsObs)
      ∧ (∀ ctx st w, ((mainHandlerChain false ctx st w).1).metricsTotal = st.metricsTotal
          ∧ ((mainHandlerChain false ctx st w).1).metricsObs = st.metricsObs) := by
  refine ⟨rfl, rfl, fun ctx st w => ?_, fun ctx st w => corsChainMetricsUntouched ctx st w⟩
  have hmain : mainHandlerChain true
      = MainGo.originCheckMiddleware (corsDefaultHandler (loggingMiddleware visitCountHandler)) :=
    rfl
  rw [hmain]
  unfold MainGo.originCheckMiddleware
  by_cases henv : ctx.env = ""
  · simp [henv]
  · simp only [henv, if_false]
    by_cases hmem : (goSplitComma ctx.env).contains (MainGo.requestOrigin ctx) = true
    · rw [if_pos hmem]
      exact corsChainMetricsUntouched ctx st w
    · rw [if_neg hmem]
      simp
